import Mathlib

/-!
Shallow embedding of the core of the `osv-reproducer` repository, together
with theorems settling the claims of its natural-language specification.

The embedding follows the Python source:

* `osv_reproducer/services/runner.py` — `RunnerService.reproduce`,
  `RunnerService.verify_crash`, `RunnerService.get_crash_info`;
* `osv_reproducer/services/builder.py` — `BuilderService.__call__`;
* `osv_reproducer/handlers/docker.py` — `DockerHandler.check_container_exit_status`;
* `osv_reproducer/handlers/gcs.py` — `GCSHandler._find_alternative_snapshot`,
  `GCSHandler._update_snapshot_version`, `GCSHandler.get_snapshot`,
  `GCSHandler._get_cached_snapshot`;
* `osv_reproducer/services/reproducer.py` — `ReproducerService.__call__`;
* `osv_reproducer/core/models/context.py` — `ReproductionContext`.

Stateful operations (Docker, Google Cloud Storage, the local file cache) are
modelled by explicit state records passed to the embedded functions, and the
remote operations a call performs are collected into an explicit event trace.
Python exceptions are modelled with `Except`; `None` with `Option`.
-/

namespace OSVRep

/-! ## Data model

The repository's `core/models` package initializer (which assembles the
`CrashInfo`, `Stack`, `Frame` and `VerificationResult` models actually used by
the services) is not present under `src/`.  Modelled from the spec: `CrashInfo`
is `{impact, operation?, size?, address?, stack}` where the stack is an ordered
sequence of frames, each frame carrying at least a function/symbol name; the
nested `location.logical_locations[0].name` access path is taken from the
accesses in `services/runner.py`.  `VerificationResult` is
`{success, matched_frame?, error_messages}`. -/

structure LogicalLocation where
  name : String
deriving DecidableEq, Repr

structure Location where
  logical_locations : List LogicalLocation
deriving DecidableEq, Repr

structure Frame where
  location : Location
deriving DecidableEq, Repr

structure Stack where
  frames : List Frame
deriving DecidableEq, Repr

structure CrashInfo where
  impact : String
  operation : Option String := none
  size : Option Nat := none
  address : Option String := none
  stack : Stack
deriving DecidableEq, Repr

/-- Modelled from the spec: result record `{success, matched_frame?,
error_messages}` accumulated by the crash verifier (the concrete dataclass is
not under `src/`; `success` starts `True` and `error_messages` empty, as in
`VerificationResult(success=True)` in `services/runner.py`). -/
structure VerificationResult where
  success : Bool
  matched_frame : Option String := none
  error_messages : List String := []
deriving DecidableEq, Repr

/-- Subset of `OSSFuzzIssueReport` (`core/models/report.py`) used by the
embedded services: its identity fields and the reference `crash_info`. -/
structure OSSFuzzIssueReport where
  id : String
  project : String
  fuzz_target : String := ""
  sanitizer : String := ""
  crash_info : CrashInfo
deriving DecidableEq, Repr

/-- Modelled from the spec: `ReproductionMode` enum `{CRASH, FIX}`
(`core/common/enums.py` is not under `src/`). -/
inductive ReproductionMode
  | CRASH
  | FIX
deriving DecidableEq, Repr

/-- Display string of a `ReproductionMode`, modelling how the Python enum
member renders inside an f-string (injective on the two members; the exact
text is irrelevant to every claim). -/
def ReproductionMode.displayStr : ReproductionMode → String
  | .CRASH => "ReproductionMode.CRASH"
  | .FIX => "ReproductionMode.FIX"

/-- Embeds `ReproductionContext` (`core/models/context.py`): the fields the
derived container names read, plus the resolved timestamp. -/
structure ReproductionContext where
  mode : ReproductionMode
  issue_report : OSSFuzzIssueReport
  timestamp : String
  test_case_path : String := ""
deriving DecidableEq, Repr

/-- Embeds the `fuzzer_container_name` property:
`f"{self.issue_report.project}_{self.timestamp}"`. -/
def ReproductionContext.fuzzer_container_name (c : ReproductionContext) : String :=
  c.issue_report.project ++ "_" ++ c.timestamp

/-- Embeds the `runner_container_name` property:
`f"{self.issue_report.project}_{self.issue_report.id}_{self.mode}"`. -/
def ReproductionContext.runner_container_name (c : ReproductionContext) : String :=
  c.issue_report.project ++ "_" ++ c.issue_report.id ++ "_" ++ c.mode.displayStr

/-! ## Crash verification (`RunnerService.verify_crash`, services/runner.py) -/

/-- Default frame used for out-of-range indexing; every access the embedded
code performs is within bounds, mirroring the guarded Python indexing. -/
def defaultFrame : Frame := { location := { logical_locations := [] } }

/-- Embeds the access path `frame.location.logical_locations[0].name`. -/
def frameName (f : Frame) : String :=
  (f.location.logical_locations.headD { name := "" }).name

/-- Function name of the frame at index `i`, i.e.
`frames[i].location.logical_locations[0].name`. -/
def frameNameAt (frames : List Frame) (i : Nat) : String :=
  frameName (frames.getD i defaultFrame)

/-- Python truthiness of the optional reference size in
`if issue_report.crash_info.size and ...` (`None` and `0` are falsy). -/
def sizeTruthy : Option Nat → Bool
  | none => false
  | some n => n ≠ 0

/-- Python `str` rendering of an optional string (used only inside recorded
mismatch messages). -/
def pyOptStr : Option String → String
  | none => "None"
  | some s => s

/-- Python `str` rendering of an optional integer. -/
def pyOptNat : Option Nat → String
  | none => "None"
  | some n => toString n

/-- Embeds `RunnerService.verify_crash` (services/runner.py, lines 95-179):
scalar checks on impact / operation / size (address only printed), the
empty-stack early return, the frame-shift search over observed frames `1..N`,
and the frame-by-frame comparison in which only an index-0 mismatch is
recorded.  The final `success` is recomputed from `error_messages` only on the
non-early-return path, exactly as in the source. -/
def verify_crash (issue_report : OSSFuzzIssueReport) (crash_info : CrashInfo) :
    VerificationResult :=
  let ci := crash_info.impact
  let ri := issue_report.crash_info.impact
  let impactMsgs := if ci ≠ ri then [s!"Impact mismatch: {ci} != {ri}"] else []
  let co := pyOptStr crash_info.operation
  let ro := pyOptStr issue_report.crash_info.operation
  let operationMsgs :=
    if crash_info.operation ≠ issue_report.crash_info.operation then
      [s!"Operation mismatch: {co} != {ro}"]
    else []
  let cs := pyOptNat crash_info.size
  let rs := pyOptNat issue_report.crash_info.size
  let sizeMsgs :=
    if sizeTruthy issue_report.crash_info.size ∧ crash_info.size ≠ issue_report.crash_info.size then
      [s!"Size mismatch: {cs} != {rs}"]
    else []
  let scalarMsgs := impactMsgs ++ operationMsgs ++ sizeMsgs
  let rframes := issue_report.crash_info.stack.frames
  let cframes := crash_info.stack.frames
  if rframes.length = 0 ∨ cframes.length = 0 then
    { success := true, matched_frame := none,
      error_messages := scalarMsgs ++ ["No stack frames to compare"] }
  else
    let shiftState : Option String × Nat × List String :=
      if cframes.length > 1 then
        let report_first_frame := frameNameAt rframes 0
        let crash_first_frame := frameNameAt cframes 0
        if report_first_frame ≠ crash_first_frame then
          match (List.range' 1 (cframes.length - 1)).find?
              (fun j => frameNameAt cframes j == report_first_frame) with
          | some j => (some (frameNameAt cframes j), j, [])
          | none => (none, 0, ["No matching stack frames found after shifting through all frames"])
        else (none, 0, [])
      else (none, 0, [])
    let matched := shiftState.1
    let shift := shiftState.2.1
    let shiftMsgs := shiftState.2.2
    let loopMsgs := (List.range (min rframes.length (cframes.length - shift))).foldl
      (fun acc i =>
        let rn := frameNameAt rframes i
        let cn := frameNameAt cframes (i + shift)
        if rn ≠ cn ∧ i = 0 then acc ++ [s!"Stack frame {i} mismatch: {cn} != {rn}"] else acc)
      []
    let msgs := scalarMsgs ++ shiftMsgs ++ loopMsgs
    { success := msgs.isEmpty, matched_frame := matched, error_messages := msgs }

/-- Builds a single-name frame, the shape produced by the repository's
`create_frame(function, file)` helper for a function name. -/
def mkFrame (nm : String) : Frame :=
  { location := { logical_locations := [{ name := nm }] } }

/-! ## Reproduction outcome (`RunnerService.reproduce`, services/runner.py) -/

/-- Embeds the exit-code dispatch at the end of `RunnerService.reproduce`
(services/runner.py, lines 82-90):

    exit_code = self.docker_handler.check_container_exit_code(container)
    if exit_code == 1:
        crash_info_dict = parse_reproduce_logs_to_dict(logs)
        if crash_info_dict:
            return CrashInfo(**crash_info_dict)
    return None

`parsedCrash` stands for the value of `parse_reproduce_logs_to_dict(logs)`
(`none` models the falsy empty dict, `some c` a parsed crash record); the
parser is a pure function of the logs, independent of the exit code, so its
result is taken as an input here. -/
def reproduce_outcome (exit_code : Int) (parsedCrash : Option CrashInfo) : Option CrashInfo :=
  if exit_code = 1 then parsedCrash else none

/-! ## Crash-info caching (`RunnerService.get_crash_info`, services/runner.py) -/

/-- Outcome of `RunnerService.get_crash_info`: the value returned, the crash
record stored in the file-provision cache afterwards, and whether the
reproduction container was run. -/
structure GetCrashOutcome where
  returned : Option CrashInfo
  stored : Option CrashInfo
  ranReproduce : Bool
deriving DecidableEq, Repr

/-- Embeds `RunnerService.get_crash_info` (services/runner.py, lines 181-191).
`storedCrash` is the record `load_crash_info(context.id, mode)` finds in the
file-provision cache; `reproduceResult` is what `self.reproduce(context)`
would return if invoked. -/
def get_crash_info (storedCrash : Option CrashInfo) (reproduceResult : Option CrashInfo) :
    GetCrashOutcome :=
  match storedCrash with
  | some c => { returned := none, stored := some c, ranReproduce := false }
  | none =>
    match reproduceResult with
    | some c => { returned := some c, stored := some c, ranReproduce := true }
    | none => { returned := none, stored := none, ranReproduce := true }

/-! ## Container reuse (`DockerHandler.check_container_exit_status`,
handlers/docker.py, and `BuilderService.__call__`, services/builder.py) -/

/-- Inspected state of an existing Docker container: its `State.Status` string
and `State.ExitCode`. -/
structure ContainerState where
  status : String
  exitCode : Int
deriving DecidableEq, Repr

/-- Embeds `DockerHandler.check_container_exit_status` (handlers/docker.py,
lines 106-120): a container in status `exited` is reusable iff its exit code
equals the expected one (otherwise it is force-removed); a container in any
other status is reported reusable. -/
def check_container_exit_status (c : ContainerState) (exit_code : Int := 0) : Bool :=
  if c.status = "exited" then
    if exit_code ≠ c.exitCode then false
    else true
  else true

/-- Decision taken by `BuilderService.__call__` for an existing fuzzer
container: reuse it, or force-remove it and start a fresh build run. -/
inductive BuilderDecision
  | reuse
  | removeAndRebuild
deriving DecidableEq, Repr

/-- Embeds the reuse branch of `BuilderService.__call__` (services/builder.py,
lines 150-174): an existing container is reused iff
`check_container_exit_status` accepts it (expected code 0) and
`find_make_error` finds no error code in its last 10 log lines; otherwise it
is removed and a fresh build container is run.  `makeError` stands for the
value of `find_make_error(container.logs(tail=10))` (that helper is imported
from `utils/parse/log.py` but is not present under `src/`, so its result is
taken as an input). -/
def builderReuse (c : ContainerState) (makeError : Option Nat) : BuilderDecision :=
  if check_container_exit_status c then
    match makeError with
    | none => .reuse
    | some _ => .removeAndRebuild
  else .removeAndRebuild

/-! ## Snapshot resolution (`GCSHandler`, handlers/gcs.py) -/

/-- Number of days of month `m` in year `y` (Gregorian), as validated by
Python's `datetime.strptime`. -/
def daysInMonth (y m : Nat) : Nat :=
  if m = 2 then
    if (y % 4 = 0 ∧ y % 100 ≠ 0) ∨ y % 400 = 0 then 29 else 28
  else if m = 4 ∨ m = 6 ∨ m = 9 ∨ m = 11 then 30
  else 31

/-- Numeric value of a decimal digit character. -/
def digitVal (c : Char) : Nat := c.toNat - 48

/-- Value of a list of decimal digit characters. -/
def digitsToNat (cs : List Char) : Nat :=
  cs.foldl (fun acc c => acc * 10 + digitVal c) 0

/-- Embeds `datetime.strptime(s, "%Y%m%d%H%M")`: accepts exactly 12 digits
forming a valid calendar date and time of day, returning the numeric value
`YYYYMMDDHHMM` (whose order on valid strings coincides with datetime order);
an invalid string models the raised `ValueError` as `none`. -/
def parseTs12 (s : String) : Option Nat :=
  let cs := s.data
  if cs.length = 12 ∧ cs.all Char.isDigit then
    let n := digitsToNat cs
    let y := n / 100000000
    let mo := n / 1000000 % 100
    let d := n / 10000 % 100
    let h := n / 100 % 100
    let mi := n % 100
    if 1 ≤ y ∧ 1 ≤ mo ∧ mo ≤ 12 ∧ 1 ≤ d ∧ d ≤ daysInMonth y mo ∧ h ≤ 23 ∧ mi ≤ 59 then
      some n
    else none
  else none

/-- Does `pat` occur at the head of `cs`? -/
def headOcc : List Char → List Char → Bool
  | [], _ => true
  | _ :: _, [] => false
  | p :: ps, c :: cs => p = c && headOcc ps cs

/-- Python `s.endswith(suf)`. -/
def pyEndsWith (s suf : String) : Bool :=
  headOcc suf.data.reverse s.data.reverse

/-- Characters after the last `'-'` of the list (the whole list when no dash
occurs), i.e. Python `"".join(cs).split('-')[-1]`. -/
def afterLastDash (cs : List Char) : List Char :=
  cs.foldl (fun acc c => if c = '-' then [] else acc ++ [c]) []

/-- Fuel-indexed worker for `removeOcc`; the fuel dominates the number of
characters left, so it never runs out on the initial call. -/
def removeOccAux (pat : List Char) : Nat → List Char → List Char
  | 0, cs => cs
  | _ + 1, [] => []
  | n + 1, c :: cs =>
    if headOcc pat (c :: cs) && !pat.isEmpty then
      removeOccAux pat n ((c :: cs).drop pat.length)
    else c :: removeOccAux pat n cs

/-- Python `s.replace(pat, '')` for a non-empty `pat`: removes every
occurrence of `pat`, scanning left to right. -/
def removeOcc (pat cs : List Char) : List Char :=
  removeOccAux pat (cs.length + 1) cs

/-- Embeds the timestamp extraction
`blob_name.split('-')[-1].replace('.srcmap.json', '')` from
`_find_alternative_snapshot`. -/
def snapshotTsStr (blobName : String) : String :=
  String.mk (removeOcc ".srcmap.json".data (afterLastDash blobName.data))

/-- Embeds the candidate filter of `_find_alternative_snapshot`
(handlers/gcs.py, lines 189-204): skip `.zip` archives, skip blobs whose
embedded timestamp does not parse, keep blobs strictly before the target,
preserving listing order. -/
def beforeTimestampBlobs (allBlobNames : List String) (target : Nat) :
    List (String × Nat) :=
  allBlobNames.filterMap (fun b =>
    if pyEndsWith b ".zip" then none
    else
      match parseTs12 (snapshotTsStr b) with
      | some t => if t < target then some (b, t) else none
      | none => none)

/-- Embeds `before_timestamp_blobs.sort(key=...)` (a stable sort on the
timestamp) followed by taking the last element: the maximal timestamp, the
later listing entry winning ties. -/
def pickLatest : List (String × Nat) → Option (String × Nat)
  | [] => none
  | p :: rest => some (rest.foldl (fun acc q => if acc.2 ≤ q.2 then q else acc) p)

/-- Embeds `GCSHandler._find_alternative_snapshot` (handlers/gcs.py, lines
167-218) applied to the blob listing: parse the target timestamp (a
`ValueError` is an exception, `Except.error`), filter the candidates, and
select the latest one strictly before the target, or `none` when no candidate
precedes it. -/
def find_alternative_snapshot (allBlobNames : List String) (timestamp : String) :
    Except String (Option String) :=
  match parseTs12 timestamp with
  | none => .error "ValueError: time data does not match format"
  | some target =>
    match pickLatest (beforeTimestampBlobs allBlobNames target) with
    | none => .ok none
    | some p => .ok (some p.1)

/-- Decidable equality of `Except` values, used to evaluate concrete
outcomes of the embedded fallible operations. -/
instance {ε α : Type} [DecidableEq ε] [DecidableEq α] : DecidableEq (Except ε α) := fun a b =>
  match a, b with
  | .ok x, .ok y =>
    if h : x = y then .isTrue (by rw [h]) else .isFalse (by simp [h])
  | .error x, .error y =>
    if h : x = y then .isTrue (by rw [h]) else .isFalse (by simp [h])
  | .ok _, .error _ => .isFalse (by simp)
  | .error _, .ok _ => .isFalse (by simp)

/-- Entry of a srcmap snapshot: the stored `{type, url, rev}` descriptor, with
`rev` optional as read by `dict.get('rev', None)`. -/
structure SrcEntry where
  typ : String := "git"
  url : String := ""
  rev : Option String := none
deriving DecidableEq, Repr

/-- A snapshot (`srcmap` dict): container source path to descriptor. -/
abbrev Srcmap := List (String × SrcEntry)

/-- Python truthiness of an optional string (`None` and `""` are falsy). -/
def strTruthy : Option String → Bool
  | none => false
  | some s => s ≠ ""

/-- Replaces the entry stored under key `k`. -/
def setEntry (m : Srcmap) (k : String) (e : SrcEntry) : Srcmap :=
  m.map (fun p => if p.1 = k then (p.1, e) else p)

/-- Embeds `GCSHandler._update_snapshot_version` (handlers/gcs.py, lines
236-258).  The source reads `srcmap[src_key].get('rev', None)` before testing
`src_key in srcmap`, so a missing key raises `KeyError`, modelled as
`Except.error`. -/
def update_snapshot_version (srcmap : Srcmap) (project_name : String)
    (commit_sha : Option String) : Except String Srcmap :=
  if ¬ strTruthy commit_sha then .ok srcmap
  else
    let src_key := "/src/" ++ project_name
    match List.lookup src_key srcmap with
    | none => .error ("KeyError: " ++ src_key)
    | some entry =>
      let prev_rev := entry.rev
      if strTruthy prev_rev ∧ prev_rev ≠ commit_sha then
        .ok (setEntry srcmap src_key { entry with rev := commit_sha })
      else .ok srcmap

/-- Remote operation issued against the object store, recorded in the order
the embedded `get_snapshot` performs it. -/
inductive GCSOp
  | opExists (blob : String)
  | opList (pre : String)
  | opDownload (blob : String)
deriving DecidableEq, Repr

/-- External state `get_snapshot` runs against: the local cache file for
`(project, timestamp)` (`some m` = file exists and parses to `m`), remote blob
existence, the listing returned for the project's candidates, and the parsed
content a download would produce (`none` models a download failure, raised as
a `GCSError`). -/
structure GCSState where
  cached : Option Srcmap
  blobExists : String → Bool
  listing : List String
  blobContent : String → Option Srcmap

/-- Result of the embedded `get_snapshot`: the returned value or raised
`GCSError`, the trace of remote operations issued, and the snapshot written to
the local cache (if any). -/
structure GetSnapshotOutcome where
  result : Except String (Option Srcmap)
  ops : List GCSOp
  savedSnapshot : Option Srcmap

/-- Exact blob key `f"{project}/{project}-{sanitizer}-{timestamp}.srcmap.json"`. -/
def srcmapBlobName (project_name sanitizer timestamp : String) : String :=
  project_name ++ "/" ++ project_name ++ "-" ++ sanitizer ++ "-" ++ timestamp ++ ".srcmap.json"

/-- Listing filter `f"{project_name}/{project_name}-{sanitizer}-"` used by the
fallback search. -/
def srcmapListPre (project_name sanitizer : String) : String :=
  project_name ++ "/" ++ project_name ++ "-" ++ sanitizer ++ "-"

/-- Download of `blob` followed by `_update_snapshot_version` and
`_save_snapshot`, the shared tail of both `get_snapshot` remote paths
(handlers/gcs.py, lines 309-320); a `KeyError` from the update escapes into
`except Exception` and is re-raised as a `GCSError`. -/
def downloadAndFinish (st : GCSState) (blob : String) (ops : List GCSOp)
    (project_name : String) (commit_sha : Option String) : GetSnapshotOutcome :=
  let ops2 := ops ++ [GCSOp.opDownload blob]
  match st.blobContent blob with
  | none => { result := .error ("GCSError: file " ++ blob ++ " not found"), ops := ops2,
              savedSnapshot := none }
  | some srcmap =>
    match update_snapshot_version srcmap project_name commit_sha with
    | .error e => { result := .error ("GCSError: failed to download srcmap: " ++ e),
                    ops := ops2, savedSnapshot := none }
    | .ok m2 => { result := .ok (some m2), ops := ops2, savedSnapshot := some m2 }

/-- Remote path of `get_snapshot` (taken when no truthy cached snapshot
exists): existence check on the exact key, fallback search over the listing,
then download / update / save. -/
def getSnapshotRemote (st : GCSState) (project_name sanitizer timestamp : String)
    (commit_sha : Option String) : GetSnapshotOutcome :=
  let blob0 := srcmapBlobName project_name sanitizer timestamp
  let ops0 := [GCSOp.opExists blob0]
  if st.blobExists blob0 then
    downloadAndFinish st blob0 ops0 project_name commit_sha
  else
    let ops1 := ops0 ++ [GCSOp.opList (srcmapListPre project_name sanitizer)]
    match find_alternative_snapshot st.listing timestamp with
    | .error e => { result := .error ("GCSError: failed to download srcmap: " ++ e),
                    ops := ops1, savedSnapshot := none }
    | .ok none => { result := .ok none, ops := ops1, savedSnapshot := none }
    | .ok (some blob1) => downloadAndFinish st blob1 ops1 project_name commit_sha

/-- Python truthiness of the loaded cache content: `if cached_snapshot:` is
false both for a missing cache file (`None`) and for an empty dict `{}`. -/
def cachedTruthy : Option Srcmap → Bool
  | none => false
  | some m => ¬ m.isEmpty

/-- Embeds `GCSHandler.get_snapshot` (handlers/gcs.py, lines 276-327): return
the cached snapshot when `_get_cached_snapshot` yields a truthy dict, else
take the remote path. -/
def get_snapshot (st : GCSState) (project_name sanitizer timestamp : String)
    (commit_sha : Option String) : GetSnapshotOutcome :=
  if cachedTruthy st.cached then
    { result := .ok st.cached, ops := [], savedSnapshot := none }
  else
    getSnapshotRemote st project_name sanitizer timestamp commit_sha

/-! ## Orchestrator (`ReproducerService.__call__`, services/reproducer.py) -/

/-- Exception raised by a pipeline phase: the three domain errors declared in
`core/exc.py` plus an uncategorized exception. -/
inductive PipelineError
  | contextErr (msg : String)
  | builderErr (msg : String)
  | runnerErr (msg : String)
  | otherErr (msg : String)
deriving DecidableEq, Repr

/-- Message carried by a pipeline error (for `ContextError`/`BuilderError`/
`RunnerError` the code stores `str(e)`; for an uncategorized exception it
stores the formatted traceback, represented here by the message itself). -/
def PipelineError.msg : PipelineError → String
  | .contextErr m => m
  | .builderErr m => m
  | .runnerErr m => m
  | .otherErr m => m

/-- Modelled from the spec: `RunStatus` carries one boolean per pipeline phase,
a nullable exit code and a nullable error string (the dataclass itself is not
under `src/`; `services/reproducer.py` starts from `RunStatus()` and assigns
fields as phases complete). -/
structure RunStatus where
  context_ok : Bool := false
  build_ok : Bool := false
  fuzzing_ok : Bool := false
  verification_ok : Bool := false
  exit_code : Option Nat := none
  error : Option String := none
deriving DecidableEq, Repr

/-- Embeds the `except` clauses of `ReproducerService.__call__`
(services/reproducer.py, lines 29-43): each domain error records the message
and exit code 2 and clears its phase flag; an uncategorized exception records
the traceback and exit code 70. -/
def applyError (rs : RunStatus) : PipelineError → RunStatus
  | .contextErr m => { rs with error := some m, exit_code := some 2, context_ok := false }
  | .builderErr m => { rs with error := some m, exit_code := some 2, build_ok := false }
  | .runnerErr m => { rs with error := some m, exit_code := some 2, fuzzing_ok := false }
  | .otherErr m => { rs with error := some m, exit_code := some 70 }

/-- Embeds the `try` block of `ReproducerService.__call__`
(services/reproducer.py, lines 18-45) over abstract phases: the context phase
produces a context, the build phase and the run phase consume it, each able to
raise a `PipelineError`.  The returned list names the phases that were
actually entered, in order — an exception aborts the `try` block, so phases
after the failing one never run. -/
def reproducerCall {α : Type} (contextPhase : Except PipelineError α)
    (buildPhase : α → Except PipelineError Unit)
    (runPhase : α → Except PipelineError VerificationResult) :
    RunStatus × List String :=
  match contextPhase with
  | .error e => (applyError {} e, ["context"])
  | .ok c =>
    let rs1 : RunStatus := { context_ok := true }
    match buildPhase c with
    | .error e => (applyError rs1 e, ["context", "build"])
    | .ok _ =>
      let rs2 : RunStatus := { rs1 with build_ok := true }
      match runPhase c with
      | .error e => (applyError rs2 e, ["context", "build", "run"])
      | .ok v =>
        ({ rs2 with fuzzing_ok := true, verification_ok := v.success },
         ["context", "build", "run"])

/-! ## Helper lemmas about the fallback-snapshot selection -/

/-- Selecting from an empty candidate list yields nothing, and conversely. -/
theorem pickLatest_eq_none_iff (l : List (String × Nat)) :
    pickLatest l = none ↔ l = [] := by
  cases l <;> simp [pickLatest]

/-- The element `pickLatest` selects is a member of its input list. -/
theorem pickLatest_mem {l : List (String × Nat)} {p : String × Nat}
    (h : pickLatest l = some p) : p ∈ l := by
  match l with
  | [] => simp [pickLatest] at h
  | q :: rest =>
    simp only [pickLatest, Option.some.injEq] at h
    subst h
    have : ∀ (m : List (String × Nat)) (a : String × Nat),
        m.foldl (fun acc q => if acc.2 ≤ q.2 then q else acc) a ∈ a :: m := by
      intro m
      induction m with
      | nil => intro a; simp
      | cons b bs ih =>
        intro a
        simp only [List.foldl_cons]
        rcases List.mem_cons.mp (ih (if a.2 ≤ b.2 then b else a)) with h1 | h1
        · rw [h1]
          by_cases hab : a.2 ≤ b.2 <;> simp [hab]
        · exact List.mem_cons_of_mem _ (List.mem_cons_of_mem _ h1)
    exact this rest q

/-- Every candidate's timestamp is at most that of the element `pickLatest`
selects. -/
theorem pickLatest_max {l : List (String × Nat)} {p : String × Nat}
    (h : pickLatest l = some p) : ∀ q ∈ l, q.2 ≤ p.2 := by
  match l with
  | [] => simp [pickLatest] at h
  | q0 :: rest =>
    simp only [pickLatest, Option.some.injEq] at h
    subst h
    have key : ∀ (m : List (String × Nat)) (a : String × Nat), ∀ r ∈ a :: m,
        r.2 ≤ (m.foldl (fun acc q => if acc.2 ≤ q.2 then q else acc) a).2 := by
      intro m
      induction m with
      | nil => intro a r hr; simp at hr; subst hr; simp
      | cons b bs ih =>
        intro a r hr
        simp only [List.foldl_cons]
        have hstep : a.2 ≤ (if a.2 ≤ b.2 then b else a).2 ∧
            b.2 ≤ (if a.2 ≤ b.2 then b else a).2 := by
          rcases le_or_lt a.2 b.2 with hab | hab
          · rw [if_pos hab]; exact ⟨hab, le_refl _⟩
          · rw [if_neg (not_le.mpr hab)]; exact ⟨le_refl _, le_of_lt hab⟩
        rcases List.mem_cons.mp hr with h1 | h1
        · rw [h1]
          exact le_trans hstep.1
            (ih (if a.2 ≤ b.2 then b else a) _ (List.mem_cons_self _ _))
        · rcases List.mem_cons.mp h1 with h2 | h2
          · rw [h2]
            exact le_trans hstep.2
              (ih (if a.2 ≤ b.2 then b else a) _ (List.mem_cons_self _ _))
          · exact ih (if a.2 ≤ b.2 then b else a) _ (List.mem_cons_of_mem _ h2)
    intro q hq
    exact key rest q0 q hq

/-- Characterization of membership in the filtered candidate list. -/
theorem mem_beforeTimestampBlobs {blobs : List String} {target : Nat}
    {b : String} {t : Nat} :
    (b, t) ∈ beforeTimestampBlobs blobs target ↔
      b ∈ blobs ∧ pyEndsWith b ".zip" = false ∧
        parseTs12 (snapshotTsStr b) = some t ∧ t < target := by
  unfold beforeTimestampBlobs
  rw [List.mem_filterMap]
  constructor
  · rintro ⟨a, ha, hfa⟩
    by_cases hz : pyEndsWith a ".zip" = true
    · simp [hz] at hfa
    · simp only [hz, Bool.false_eq_true, if_false] at hfa
      cases hp : parseTs12 (snapshotTsStr a) with
      | none => rw [hp] at hfa; simp at hfa
      | some t' =>
        rw [hp] at hfa
        simp only at hfa
        by_cases hlt : t' < target
        · simp only [hlt, if_true, Option.some.injEq, Prod.mk.injEq] at hfa
          obtain ⟨rfl, rfl⟩ := hfa
          exact ⟨ha, by simpa using hz, hp, hlt⟩
        · simp [hlt] at hfa
  · rintro ⟨hb, hz, hp, hlt⟩
    exact ⟨b, hb, by simp [hz, hp, hlt]⟩

/-- The filtered candidate list is empty iff no listed blob is a parsable
snapshot strictly before the target. -/
theorem beforeTimestampBlobs_eq_nil_iff {blobs : List String} {target : Nat} :
    beforeTimestampBlobs blobs target = [] ↔
      ∀ b ∈ blobs, ∀ t, pyEndsWith b ".zip" = false →
        parseTs12 (snapshotTsStr b) = some t → ¬ t < target := by
  unfold beforeTimestampBlobs
  rw [List.filterMap_eq_nil_iff]
  constructor
  · intro h b hb t hz hp hlt
    have := h b hb
    simp [hz, hp, hlt] at this
  · intro h b hb
    by_cases hz : pyEndsWith b ".zip" = true
    · simp [hz]
    · cases hp : parseTs12 (snapshotTsStr b) with
      | none => simp [hz, hp]
      | some t =>
        have := h b hb t (by simpa using hz) hp
        simp [hz, hp, this]

/-! ## Shared concrete values used by witnesses and counterexamples -/

/-- A concrete crash record with a one-frame stack. -/
def demoCrash : CrashInfo :=
  { impact := "heap-buffer-overflow", operation := some "READ", size := some 4,
    address := some "0x602000000058",
    stack := { frames := [mkFrame "target_fn"] } }

/-! ## Claim theorems -/

/-- Claim C1 (code bug): on the empty-stack early return, `verify_crash`
records "No stack frames to compare" but leaves `success = True`, so the
returned result has `success = true` together with a non-empty
`error_messages` list — violating the specified `success` ⟺ no recorded
message, and violating "record the message and fail".  Evaluated here at a
reference and observed record that agree on impact, operation, size and
address and both carry an empty stack. -/
theorem verify_crash_empty_stack_reports_success :
    (verify_crash
      { id := "42", project := "proj",
        crash_info := { impact := "heap-buffer-overflow", operation := some "READ",
                        size := some 4, address := some "0x1", stack := { frames := [] } } }
      { impact := "heap-buffer-overflow", operation := some "READ",
        size := some 4, address := some "0x1", stack := { frames := [] } }) =
      { success := true, matched_frame := none,
        error_messages := ["No stack frames to compare"] } := by
  rfl

/-- Claim C2 (counterexample): an infrastructure exit code such as 137 yields
exactly the same outcome (`none`) as the no-crash exit code 0, even when the
logs parse to a crash record — it is not reported as a distinct
infrastructure failure. -/
theorem reproduce_outcome_folds_infra_exit_code :
    reproduce_outcome 137 (some demoCrash) = none ∧
    reproduce_outcome 0 (some demoCrash) = none ∧
    reproduce_outcome 1 (some demoCrash) = some demoCrash := by
  refine ⟨rfl, rfl, rfl⟩

/-- Claim C2 (amended): a final exit code of 1 returns the parsed crash
record (absent when the logs do not parse to one); every other exit code —
0 and infrastructure codes alike — returns the no-crash result `none`, so
infrastructure failures are not distinguished from the no-crash outcome. -/
theorem reproduce_outcome_exit_code_dispatch (exit_code : Int)
    (parsedCrash : Option CrashInfo) (h : exit_code ≠ 1) :
    reproduce_outcome exit_code parsedCrash = none ∧
    reproduce_outcome 1 parsedCrash = parsedCrash ∧
    reproduce_outcome 0 parsedCrash = none := by
  refine ⟨?_, rfl, rfl⟩
  simp [reproduce_outcome, h]

/-- Witness for `reproduce_outcome_exit_code_dispatch` at exit code 137. -/
theorem reproduce_outcome_exit_code_dispatch_witness :
    (137 : Int) ≠ 1 ∧
    reproduce_outcome 137 (some demoCrash) = none ∧
    reproduce_outcome 1 (some demoCrash) = some demoCrash ∧
    reproduce_outcome 0 (some demoCrash) = none :=
  ⟨by decide, reproduce_outcome_exit_code_dispatch 137 (some demoCrash) (by decide)⟩

/-- Claim C3 (counterexample): an existing fuzzer container whose inspected
status is the terminal state `dead` with exit code 1 — a terminal state other
than "exited with the expected code 0" — is reused without a rebuild
(its logs showing no make error), not force-removed. -/
theorem builderReuse_dead_container_reused :
    builderReuse { status := "dead", exitCode := 1 } none = .reuse := by
  rfl

/-- Claim C3 (amended): an existing fuzzer container is reused without a
rebuild iff its inspected status is not `exited` or it exited with the
expected code 0, and in addition `find_make_error` reports no error in its
last log lines; it is force-removed and a fresh build run started iff it
exited with a code other than 0, or a make error is found in its logs. -/
theorem builderReuse_characterization (c : ContainerState) (makeError : Option Nat) :
    (builderReuse c makeError = .reuse ↔
      ((c.status ≠ "exited" ∨ c.exitCode = 0) ∧ makeError = none)) ∧
    (builderReuse c makeError = .removeAndRebuild ↔
      ((c.status = "exited" ∧ c.exitCode ≠ 0) ∨ makeError ≠ none)) := by
  unfold builderReuse check_container_exit_status
  by_cases hs : c.status = "exited" <;>
    by_cases he : c.exitCode = 0 <;>
    cases makeError <;>
    simp [hs, he, eq_comm]

/-- Claim C4: with reference stack `[f, g, h]` and observed stack
`[sanitizer_intercept, f, g, h]` agreeing on impact, operation, size and
address (all quantified), the frame-shift search finds the reference's frame 0
at observed index 1 and the shifted comparison succeeds:
`success = true` and `matched_frame = "f"`. -/
theorem verify_crash_shift_by_one (rid rproj imp : String) (op : Option String)
    (sz : Option Nat) (addr : Option String) :
    (verify_crash
      { id := rid, project := rproj,
        crash_info := { impact := imp, operation := op, size := sz, address := addr,
                        stack := { frames := [mkFrame "f", mkFrame "g", mkFrame "h"] } } }
      { impact := imp, operation := op, size := sz, address := addr,
        stack := { frames := [mkFrame "sanitizer_intercept", mkFrame "f",
                              mkFrame "g", mkFrame "h"] } }).success = true ∧
    (verify_crash
      { id := rid, project := rproj,
        crash_info := { impact := imp, operation := op, size := sz, address := addr,
                        stack := { frames := [mkFrame "f", mkFrame "g", mkFrame "h"] } } }
      { impact := imp, operation := op, size := sz, address := addr,
        stack := { frames := [mkFrame "sanitizer_intercept", mkFrame "f",
                              mkFrame "g", mkFrame "h"] } }).matched_frame = some "f" := by
  simp [verify_crash, frameNameAt, frameName, mkFrame, defaultFrame, sizeTruthy,
    List.range', List.find?]

/-- Claim C6: `get_crash_info` returns a crash record only when no record was
previously stored and a fresh reproduction run produces one (which is then
saved); whenever a stored record exists it returns `none` without running the
reproduction container. -/
theorem get_crash_info_cache_gate (storedCrash reproduceResult : Option CrashInfo) :
    ((get_crash_info storedCrash reproduceResult).returned.isSome →
      storedCrash = none ∧
      (get_crash_info storedCrash reproduceResult).returned = reproduceResult ∧
      (get_crash_info storedCrash reproduceResult).stored = reproduceResult ∧
      (get_crash_info storedCrash reproduceResult).ranReproduce = true) ∧
    (∀ c, storedCrash = some c →
      get_crash_info storedCrash reproduceResult =
        { returned := none, stored := some c, ranReproduce := false }) := by
  constructor
  · intro h
    cases storedCrash with
    | some c => simp [get_crash_info] at h
    | none =>
      cases reproduceResult with
      | some c => simp [get_crash_info]
      | none => simp [get_crash_info] at h
  · intro c hc
    subst hc
    rfl

/-- Witness for `get_crash_info_cache_gate`: a stored record suppresses the
run and the return value; an absent one lets a fresh result through. -/
theorem get_crash_info_cache_gate_witness :
    (get_crash_info (some demoCrash) none =
      { returned := none, stored := some demoCrash, ranReproduce := false }) ∧
    (get_crash_info none (some demoCrash)).returned = some demoCrash :=
  ⟨(get_crash_info_cache_gate (some demoCrash) none).2 demoCrash rfl,
   ((get_crash_info_cache_gate none (some demoCrash)).1 (by rfl)).2.1⟩

/-- Claim C7 (counterexample): two reproduction contexts that agree on
project, issue id and mode but were resolved to different build timestamps
derive different fuzzer-container names — the fuzzer-container name is not a
function of `(project, issue_id, mode)`. -/
theorem fuzzer_container_name_depends_on_timestamp :
    let r : OSSFuzzIssueReport :=
      { id := "OSV-2023-1", project := "libfoo", crash_info := demoCrash }
    let c1 : ReproductionContext :=
      { mode := .CRASH, issue_report := r, timestamp := "202401010100" }
    let c2 : ReproductionContext :=
      { mode := .CRASH, issue_report := r, timestamp := "202401020200" }
    c1.issue_report.project = c2.issue_report.project ∧
    c1.issue_report.id = c2.issue_report.id ∧
    c1.mode = c2.mode ∧
    c1.fuzzer_container_name ≠ c2.fuzzer_container_name := by
  refine ⟨rfl, rfl, rfl, ?_⟩
  decide

/-- Claim C7 (amended): the runner-container name is a pure function of
`(project, issue_id, mode)`, but the fuzzer-container name is a pure function
of `(project, timestamp)` — it varies with the resolved timestamp and is
insensitive to issue id and mode. -/
theorem container_names_pure_functions (c1 c2 : ReproductionContext)
    (hproj : c1.issue_report.project = c2.issue_report.project) :
    (c1.issue_report.id = c2.issue_report.id → c1.mode = c2.mode →
      c1.runner_container_name = c2.runner_container_name) ∧
    (c1.timestamp = c2.timestamp →
      c1.fuzzer_container_name = c2.fuzzer_container_name) := by
  constructor
  · intro hid hmode
    unfold ReproductionContext.runner_container_name
    rw [hproj, hid, hmode]
  · intro hts
    unfold ReproductionContext.fuzzer_container_name
    rw [hproj, hts]

/-- Witness for `container_names_pure_functions`: two contexts agreeing on
project, issue id and mode but differing in timestamp and test-case path get
the same runner-container name. -/
theorem container_names_pure_functions_witness :
    let r : OSSFuzzIssueReport :=
      { id := "OSV-2023-1", project := "libfoo", crash_info := demoCrash }
    let c1 : ReproductionContext :=
      { mode := .CRASH, issue_report := r, timestamp := "202401010100" }
    let c2 : ReproductionContext :=
      { mode := .CRASH, issue_report := r, timestamp := "202401020200",
        test_case_path := "/tmp/tc" }
    c1.issue_report.project = c2.issue_report.project ∧
    c1.runner_container_name = c2.runner_container_name := by
  refine ⟨rfl, ?_⟩
  exact (container_names_pure_functions _ _ rfl).1 rfl rfl

/-- Claim C5: in the fallback search, given a parsable target timestamp, the
resolver answers `none` exactly when no listed candidate is a non-archive,
parsable snapshot strictly before the target; and any returned candidate is
such a snapshot whose timestamp is maximal among them.  Instantiated on
candidates at timestamps `..0100 / ..0200 / ..0300` with target `..0250`, it
selects the `..0200` snapshot, never the later `..0300` one. -/
theorem find_alternative_snapshot_selects_closest_preceding
    (blobs : List String) (timestamp : String) (target : Nat)
    (hts : parseTs12 timestamp = some target) :
    (find_alternative_snapshot blobs timestamp = .ok none ↔
      ∀ b ∈ blobs, ∀ t, pyEndsWith b ".zip" = false →
        parseTs12 (snapshotTsStr b) = some t → ¬ t < target) ∧
    (∀ b, find_alternative_snapshot blobs timestamp = .ok (some b) →
      b ∈ blobs ∧ pyEndsWith b ".zip" = false ∧
      ∃ t, parseTs12 (snapshotTsStr b) = some t ∧ t < target ∧
        ∀ b' t', b' ∈ blobs → pyEndsWith b' ".zip" = false →
          parseTs12 (snapshotTsStr b') = some t' → t' < target → t' ≤ t) ∧
    (find_alternative_snapshot
        ["p/p-address-202401010100.srcmap.json",
         "p/p-address-202401010200.srcmap.json",
         "p/p-address-202401010300.srcmap.json"] "202401010250" =
      .ok (some "p/p-address-202401010200.srcmap.json")) := by
  refine ⟨?_, ?_, ?_⟩
  case refine_3 => rfl
  all_goals
    unfold find_alternative_snapshot
    rw [hts]
    dsimp only
  · cases hpl : pickLatest (beforeTimestampBlobs blobs target) with
    | none =>
      have hnil : beforeTimestampBlobs blobs target = [] :=
        (pickLatest_eq_none_iff _).mp hpl
      dsimp only
      constructor
      · intro _
        exact beforeTimestampBlobs_eq_nil_iff.mp hnil
      · intro _
        rfl
    | some p =>
      obtain ⟨b0, t0⟩ := p
      have hmem : (b0, t0) ∈ beforeTimestampBlobs blobs target := pickLatest_mem hpl
      obtain ⟨hb0, hz0, hp0, hlt0⟩ := mem_beforeTimestampBlobs.mp hmem
      dsimp only
      constructor
      · intro h
        simp at h
      · intro hall
        exact absurd hlt0 (hall b0 hb0 t0 hz0 hp0)
  · cases hpl : pickLatest (beforeTimestampBlobs blobs target) with
    | none =>
      intro b hb
      simp at hb
    | some p =>
      obtain ⟨b0, t0⟩ := p
      have hmem : (b0, t0) ∈ beforeTimestampBlobs blobs target := pickLatest_mem hpl
      have hmax := pickLatest_max hpl
      obtain ⟨hb0, hz0, hp0, hlt0⟩ := mem_beforeTimestampBlobs.mp hmem
      intro b hb
      simp only [Except.ok.injEq, Option.some.injEq] at hb
      subst hb
      refine ⟨hb0, hz0, t0, hp0, hlt0, ?_⟩
      intro b' t' hb' hz' hp' hlt'
      exact hmax (b', t') (mem_beforeTimestampBlobs.mpr ⟨hb', hz', hp', hlt'⟩)

/-- Witness for `find_alternative_snapshot_selects_closest_preceding` on the
three-candidate instance with target `202401010250`. -/
theorem find_alternative_snapshot_selects_closest_preceding_witness :
    parseTs12 "202401010250" = some 202401010250 ∧
    (find_alternative_snapshot
        ["p/p-address-202401010100.srcmap.json",
         "p/p-address-202401010200.srcmap.json",
         "p/p-address-202401010300.srcmap.json"] "202401010250" =
      .ok (some "p/p-address-202401010200.srcmap.json")) :=
  ⟨by rfl,
   (find_alternative_snapshot_selects_closest_preceding
      ["p/p-address-202401010100.srcmap.json",
       "p/p-address-202401010200.srcmap.json",
       "p/p-address-202401010300.srcmap.json"] "202401010250" 202401010250
      (by rfl)).2.2⟩

/-- A concrete non-empty snapshot used by the cache-hit witness. -/
def demoSrcmap : Srcmap :=
  [("/src/libfoo", { typ := "git", url := "https://example.com/libfoo.git",
                     rev := some "abc123" })]

/-- A GCS state whose local cache holds `demoSrcmap` and whose remote side
would fail every operation. -/
def demoCacheHitState : GCSState :=
  { cached := some demoSrcmap, blobExists := fun _ => false, listing := [],
    blobContent := fun _ => none }

/-- A GCS state whose local cache file exists but contains the empty dict. -/
def emptyCacheState : GCSState :=
  { cached := some [], blobExists := fun _ => false, listing := [],
    blobContent := fun _ => none }

/-- Claim C8 (counterexample): a local cache entry for (project, timestamp)
exists — it holds the empty dict, which the code's truthiness test treats as
missing — yet `get_snapshot` issues remote operations (the existence check and
the fallback listing) instead of returning the cached value. -/
theorem get_snapshot_empty_cached_dict_hits_remote :
    emptyCacheState.cached = some [] ∧
    (get_snapshot emptyCacheState "p" "address" "202401010000" none).ops =
      [GCSOp.opExists "p/p-address-202401010000.srcmap.json",
       GCSOp.opList "p/p-address-"] :=
  ⟨rfl, rfl⟩

/-- Claim C8 (amended): whenever the local cache holds a non-empty snapshot
for (project, timestamp), `get_snapshot` returns it unmodified, issues no
remote operation, and performs neither the expected-revision overwrite nor a
cache write, even when a commit SHA is supplied. -/
theorem get_snapshot_cache_hit_no_remote (st : GCSState)
    (project_name sanitizer timestamp : String) (commit_sha : Option String)
    (m : Srcmap) (hc : st.cached = some m) (hm : m ≠ []) :
    get_snapshot st project_name sanitizer timestamp commit_sha =
      { result := .ok (some m), ops := [], savedSnapshot := none } := by
  unfold get_snapshot
  rw [hc]
  simp [cachedTruthy, hm]

/-- Witness for `get_snapshot_cache_hit_no_remote` on `demoCacheHitState`
with a commit SHA supplied. -/
theorem get_snapshot_cache_hit_no_remote_witness :
    demoCacheHitState.cached = some demoSrcmap ∧ demoSrcmap ≠ [] ∧
    get_snapshot demoCacheHitState "libfoo" "address" "202401010100" (some "fix0") =
      { result := .ok (some demoSrcmap), ops := [], savedSnapshot := none } :=
  ⟨rfl, by decide,
   get_snapshot_cache_hit_no_remote demoCacheHitState "libfoo" "address"
     "202401010100" (some "fix0") demoSrcmap rfl (by decide)⟩

/-- Exit code the orchestrator records for a raised phase error: the reserved
domain-error code 2 for the three declared domain exceptions, the distinct
code 70 for an uncategorized exception. -/
def exitCodeFor : PipelineError → Nat
  | .otherErr _ => 70
  | _ => 2

/-- Claim C9: a phase that raises stops the pipeline — the entered-phase trace
ends at the failing phase — and the orchestrator records the error message
together with the phase-specific exit code: 2 for the domain errors raised by
the context, build and run phases, 70 for an uncategorized exception; when
every phase succeeds no exit code and no error are recorded. -/
theorem reproducerCall_stops_and_codes {α : Type}
    (contextPhase : Except PipelineError α)
    (buildPhase : α → Except PipelineError Unit)
    (runPhase : α → Except PipelineError VerificationResult) (e : PipelineError) :
    (contextPhase = .error e →
      (reproducerCall contextPhase buildPhase runPhase).2 = ["context"] ∧
      (reproducerCall contextPhase buildPhase runPhase).1.error = some e.msg ∧
      (reproducerCall contextPhase buildPhase runPhase).1.exit_code =
        some (exitCodeFor e)) ∧
    (∀ c, contextPhase = .ok c → buildPhase c = .error e →
      (reproducerCall contextPhase buildPhase runPhase).2 = ["context", "build"] ∧
      (reproducerCall contextPhase buildPhase runPhase).1.error = some e.msg ∧
      (reproducerCall contextPhase buildPhase runPhase).1.exit_code =
        some (exitCodeFor e)) ∧
    (∀ c, contextPhase = .ok c → buildPhase c = .ok () → runPhase c = .error e →
      (reproducerCall contextPhase buildPhase runPhase).2 =
        ["context", "build", "run"] ∧
      (reproducerCall contextPhase buildPhase runPhase).1.error = some e.msg ∧
      (reproducerCall contextPhase buildPhase runPhase).1.exit_code =
        some (exitCodeFor e)) ∧
    (∀ c v, contextPhase = .ok c → buildPhase c = .ok () → runPhase c = .ok v →
      (reproducerCall contextPhase buildPhase runPhase).1.exit_code = none ∧
      (reproducerCall contextPhase buildPhase runPhase).1.error = none) := by
  refine ⟨?_, ?_, ?_, ?_⟩
  · intro hctx
    subst hctx
    cases e <;> simp [reproducerCall, applyError, exitCodeFor, PipelineError.msg]
  · intro c hctx hbuild
    subst hctx
    cases e <;>
      simp [reproducerCall, hbuild, applyError, exitCodeFor, PipelineError.msg]
  · intro c hctx hbuild hrun
    subst hctx
    cases e <;>
      simp [reproducerCall, hbuild, hrun, applyError, exitCodeFor, PipelineError.msg]
  · intro c v hctx hbuild hrun
    subst hctx
    simp [reproducerCall, hbuild, hrun]

/-- Witness for `reproducerCall_stops_and_codes`: a build-phase
`BuilderError` stops the pipeline after the build phase with exit code 2. -/
theorem reproducerCall_stops_and_codes_witness :
    ((Except.ok () : Except PipelineError Unit) = .ok ()) ∧
    (reproducerCall (Except.ok ())
        (fun _ => (.error (.builderErr "build failed") : Except PipelineError Unit))
        (fun _ => (.ok { success := true } : Except PipelineError VerificationResult))).2 =
      ["context", "build"] ∧
    (reproducerCall (Except.ok ())
        (fun _ => (.error (.builderErr "build failed") : Except PipelineError Unit))
        (fun _ => (.ok { success := true } : Except PipelineError VerificationResult))).1.error =
      some "build failed" ∧
    (reproducerCall (Except.ok ())
        (fun _ => (.error (.builderErr "build failed") : Except PipelineError Unit))
        (fun _ => (.ok { success := true } : Except PipelineError VerificationResult))).1.exit_code =
      some 2 :=
  ⟨rfl,
   (reproducerCall_stops_and_codes (Except.ok ())
      (fun _ => .error (.builderErr "build failed"))
      (fun _ => .ok { success := true })
      (.builderErr "build failed")).2.1 () rfl rfl⟩

/-- Claim C10: when the downloaded snapshot has no entry under
`/src/<project>` and a non-empty commit SHA is supplied,
`_update_snapshot_version` raises (`srcmap[src_key]` is evaluated before the
`src_key in srcmap` test), and `get_snapshot` surfaces the failure as a
`GCSError` instead of returning the snapshot — nothing is cached. -/
theorem update_snapshot_version_missing_key_raises
    (srcmap : Srcmap) (project_name sha sanitizer timestamp : String) (st : GCSState)
    (hsha : sha ≠ "")
    (hkey : List.lookup ("/src/" ++ project_name) srcmap = none)
    (hcache : st.cached = none)
    (hex : st.blobExists (srcmapBlobName project_name sanitizer timestamp) = true)
    (hcont : st.blobContent (srcmapBlobName project_name sanitizer timestamp) =
      some srcmap) :
    (∃ emsg, update_snapshot_version srcmap project_name (some sha) = .error emsg) ∧
    (∃ emsg, (get_snapshot st project_name sanitizer timestamp (some sha)).result =
      .error emsg) ∧
    (get_snapshot st project_name sanitizer timestamp (some sha)).savedSnapshot =
      none := by
  have hupd : update_snapshot_version srcmap project_name (some sha) =
      .error ("KeyError: " ++ ("/src/" ++ project_name)) := by
    unfold update_snapshot_version
    simp [strTruthy, hsha, hkey]
  have hget : get_snapshot st project_name sanitizer timestamp (some sha) =
      { result := .error ("GCSError: failed to download srcmap: " ++
          ("KeyError: " ++ ("/src/" ++ project_name))),
        ops := [GCSOp.opExists (srcmapBlobName project_name sanitizer timestamp),
                GCSOp.opDownload (srcmapBlobName project_name sanitizer timestamp)],
        savedSnapshot := none } := by
    unfold get_snapshot getSnapshotRemote downloadAndFinish
    simp [cachedTruthy, hcache, hex, hcont, hupd]
  exact ⟨⟨_, hupd⟩, ⟨_, by rw [hget]⟩, by rw [hget]⟩

/-- Witness for `update_snapshot_version_missing_key_raises`: a snapshot
whose only entry is `/src/other` together with commit SHA `cafe` for project
`libmiss`. -/
theorem update_snapshot_version_missing_key_raises_witness :
    ("cafe" ≠ "") ∧
    List.lookup "/src/libmiss" [("/src/other", ({} : SrcEntry))] = none ∧
    (∃ emsg, update_snapshot_version [("/src/other", ({} : SrcEntry))] "libmiss"
      (some "cafe") = .error emsg) ∧
    (∃ emsg, (get_snapshot
        { cached := none, blobExists := fun _ => true, listing := [],
          blobContent := fun _ => some [("/src/other", ({} : SrcEntry))] }
        "libmiss" "address" "202401010100" (some "cafe")).result = .error emsg) :=
  ⟨by decide, by rfl,
   (update_snapshot_version_missing_key_raises
      [("/src/other", ({} : SrcEntry))] "libmiss" "cafe" "address" "202401010100"
      { cached := none, blobExists := fun _ => true, listing := [],
        blobContent := fun _ => some [("/src/other", ({} : SrcEntry))] }
      (by decide) (by rfl) rfl rfl rfl).1,
   (update_snapshot_version_missing_key_raises
      [("/src/other", ({} : SrcEntry))] "libmiss" "cafe" "address" "202401010100"
      { cached := none, blobExists := fun _ => true, listing := [],
        blobContent := fun _ => some [("/src/other", ({} : SrcEntry))] }
      (by decide) (by rfl) rfl rfl rfl).2.1⟩

end OSVRep
